import Mathlib

/-!
Shallow embedding of the Benchmark Query Engine of
`src/code/benchmarking_app.py` (a streamlit dashboard).

The Python program, after a fund-name check, resolves the three selector
mapping tables (`asset_class_mapping`, `geography_mapping`,
`fund_size_mapping`), filters the catalog dataframe by four conjunctive
predicates (lines 114-119), branches on an empty result (lines 121-123),
determines the applicable metric names from the vintage (lines 125-128),
validates the caller-supplied metric values (lines 130-143), computes
per-metric benchmarks with pandas `quantile`/`mean` (lines 148-156, which
skip missing values), and finally renders (lines 158-224).

Catalog rows become `FundRecord` with optional metric values (a pandas NaN
cell is `none`); the user submission becomes `Query`; the observable result
of one submission becomes `Outcome`; the whole submit handler becomes
`runSubmit`.  Numeric values are modelled as rationals; the
`float('inf')` upper bounds of size buckets are modelled as `none` in
`Option ℚ`.
-/

/-- One row of the historical fund catalog (the excel sheet loaded by
`load_fund_data`): columns ASSET CLASS, VINTAGE, FM REGION,
FUND SIZE (USD MN) and the three optional metric columns. -/
structure FundRecord where
  assetClass : String
  vintage : Int
  region : String
  fundSize : ℚ
  netIRR : Option ℚ
  netTVPI : Option ℚ
  netDPI : Option ℚ
deriving DecidableEq, Repr

/-- One user submission: the sidebar inputs of the app.  The three metric
inputs are `st.number_input` widgets, which always yield a number
(default 0.0), hence plain rationals. -/
structure Query where
  fundName : String
  assetClass : String
  vintage : Int
  geography : String
  fundSize : String
  netIRR : ℚ
  netTVPI : ℚ
  netDPI : ℚ
deriving DecidableEq, Repr

/-- A size bucket range: lower bound and upper bound, `none` standing for
`float('inf')`. -/
abbrev SizeRange : Type := ℚ × Option ℚ

/-- Lookup in an association list, modelling Python `dict.get` /
`dict[...]` on the literal mapping tables. -/
def tableGet {α : Type} (tbl : List (String × α)) (k : String) : Option α :=
  (tbl.find? (fun p => p.1 == k)).map (fun p => p.2)

/-- `asset_class_mapping` of the source (lines 77-80). -/
def asset_class_mapping : List (String × List String) :=
  [("Venture Capital (all stages)", ["Venture Capital"]),
   ("Private Equity (Buy-out)", ["Private Equity"])]

/-- `geography_mapping` of the source (lines 84-88). -/
def geography_mapping : List (String × List String) :=
  [("Europe", ["Europe"]),
   ("US", ["North America"]),
   ("Europe & US", ["Europe", "North America"])]

/-- `fund_size_mapping` of the source (lines 92-110): per asset class, a
bucket-label table of numeric ranges. -/
def fund_size_mapping : List (String × List (String × SizeRange)) :=
  [("Venture Capital (all stages)",
     [("$10mn-$50mn", ((10 : ℚ), some 50)),
      ("$50mn-$100mn", ((50 : ℚ), some 100)),
      ("$100mn-$200mn", ((100 : ℚ), some 200)),
      ("$200mn-$500mn", ((200 : ℚ), some 500)),
      ("$500mn+", ((500 : ℚ), none)),
      ("Agnostic", ((0 : ℚ), none))]),
   ("Private Equity (Buy-out)",
     [("<$1bn", ((0 : ℚ), some 1000)),
      ("$1bn-$3bn", ((1000 : ℚ), some 3000)),
      ("$3bn-$5bn", ((3000 : ℚ), some 5000)),
      ("$5bn-$10bn", ((5000 : ℚ), some 10000)),
      (">$10bn", ((10000 : ℚ), none)),
      ("Agnostic", ((0 : ℚ), none))]) ]

/-- `fund_size_mapping[asset_class][fund_size]` (line 111). -/
def bucketRange (assetClass fundSize : String) : Option SizeRange :=
  (tableGet fund_size_mapping assetClass).bind (fun tbl => tableGet tbl fundSize)

/-- Pandas `Series.between(lo, hi)` with the default `inclusive` setting,
applied to the resolved size range (line 118); an infinite upper bound
imposes no upper constraint. -/
def sizeBetween (range : SizeRange) (s : ℚ) : Bool :=
  decide (range.1 ≤ s) &&
    (match range.2 with
     | none => true
     | some u => decide (s ≤ u))

/-- The dataframe filter of lines 114-119: conjunction of the asset-class
`isin`, the exact vintage equality, the region `isin`, and the size
`between`. -/
def filtered_data (catalog : List FundRecord) (sel : List String) (vintage : Int)
    (regs : List String) (range : SizeRange) : List FundRecord :=
  catalog.filter (fun r =>
    sel.contains r.assetClass && (r.vintage == vintage) &&
      regs.contains r.region && sizeBetween range r.fundSize)

/-- The hardcoded list `[2022, 2023, 2024]` of line 125: the three most
recent years among the selectable vintages (the vintage selectbox offers
2000-2024). -/
def recentVintages : List Int := [2022, 2023, 2024]

/-- The vintage selectbox options of line 54. -/
def vintage_options : List Int :=
  [2000, 2001, 2002, 2003, 2004, 2005, 2006, 2007, 2008, 2009, 2010, 2011,
   2012, 2013, 2014, 2015, 2016, 2017, 2018, 2019, 2020, 2021, 2022, 2023, 2024]

/-- `metric_names` of lines 125-128: IRR is omitted for vintages within the
three most recent years. -/
def metric_names (vintage : Int) : List String :=
  if recentVintages.contains vintage then
    ["NET TVPI (X)", "NET DPI (X)"]
  else
    ["NET IRR (%)", "NET TVPI (X)", "NET DPI (X)"]

/-- The `metrics` dict literal of lines 130-134. -/
def metricItems (irr tvpi dpi : ℚ) : List (String × ℚ) :=
  [("NET IRR (%)", irr), ("NET TVPI (X)", tvpi), ("NET DPI (X)", dpi)]

/-- The comprehension of line 135 (and the identical one of line 138):
the user metrics restricted to the applicable metric names. -/
def metricsFor (irr tvpi dpi : ℚ) (names : List String) : List (String × ℚ) :=
  (metricItems irr tvpi dpi).filter (fun p => names.contains p.1)

/-- `missing_metrics` of line 139: the applicable metrics whose supplied
value is zero (`st.number_input` never yields `None`, so the `v is None`
disjunct of the source is vacuous at runtime). -/
def missing_metrics (ms : List (String × ℚ)) : List String :=
  (ms.filter (fun p => decide (p.2 = 0))).map (fun p => p.1)

/-- The metric column of a catalog row selected by name
(`filtered_data[metric]`, line 149-151). -/
def metricColumn (name : String) (r : FundRecord) : Option ℚ :=
  if name = "NET IRR (%)" then r.netIRR
  else if name = "NET TVPI (X)" then r.netTVPI
  else if name = "NET DPI (X)" then r.netDPI
  else none

/-- The non-missing values of a metric column over a set of rows: pandas
`quantile` and `mean` drop NaN cells before computing. -/
def metricValues (name : String) (rs : List FundRecord) : List ℚ :=
  rs.filterMap (metricColumn name)

/-- Insertion into a sorted list of rationals. -/
def insertSorted (x : ℚ) : List ℚ → List ℚ
  | [] => [x]
  | y :: ys => if x ≤ y then x :: y :: ys else y :: insertSorted x ys

/-- Ascending sort of the value list, as pandas does internally before
taking an order statistic. -/
def sortValues (xs : List ℚ) : List ℚ :=
  xs.foldr insertSorted []

/-- Pandas `Series.quantile(q)` with the default linear interpolation over
the non-missing values: position `q * (n - 1)` in the sorted list,
interpolating between the two neighbouring order statistics; `none` for an
empty series (pandas returns NaN). -/
def seriesQuantile (q : ℚ) (xs : List ℚ) : Option ℚ :=
  let s := sortValues xs
  match s with
  | [] => none
  | _ :: _ =>
    let n := s.length
    let h : ℚ := q * ((n : ℚ) - 1)
    let i : ℕ := h.floor.toNat
    let lo := s.getD i 0
    let hi := s.getD (min (i + 1) (n - 1)) 0
    some (lo + (h - (i : ℚ)) * (hi - lo))

/-- Pandas `Series.mean()` over the non-missing values; `none` for an empty
series. -/
def seriesMean (xs : List ℚ) : Option ℚ :=
  match xs with
  | [] => none
  | _ :: _ => some (xs.sum / (xs.length : ℚ))

/-- The per-metric benchmark triple of lines 149-156. -/
structure BenchmarkTriple where
  topDecile : Option ℚ
  topQuartile : Option ℚ
  average : Option ℚ
deriving DecidableEq, Repr

/-- The statistics of one metric over the filtered rows (lines 149-151):
90th percentile, 75th percentile and mean of the non-missing values. -/
def benchmarkFor (name : String) (rs : List FundRecord) : BenchmarkTriple :=
  let vs := metricValues name rs
  { topDecile := seriesQuantile (9 / 10) vs
    topQuartile := seriesQuantile (3 / 4) vs
    average := seriesMean vs }

/-- `benchmark_values` of lines 146-156: one triple per applicable metric
name. -/
def benchmark_values (names : List String) (rs : List FundRecord) :
    List (String × BenchmarkTriple) :=
  names.map (fun n => (n, benchmarkFor n rs))

/-- The observable result of one submission: which message the app shows,
or the rendered benchmarks. -/
inductive Outcome where
  | missingFundName : Outcome
  | noFunds : Outcome
  | missingMetrics : List String → Outcome
  | noMetrics : Outcome
  | benchmarks : List (String × BenchmarkTriple) → List (String × ℚ) → Nat → Outcome
deriving DecidableEq, Repr

/-- The submit handler (lines 68-224) as a function of the loaded catalog
and the submission.  `none` models the crash on an unknown selector key
(`dict[...]` KeyError / `isin(None)`), which the selectbox widgets make
unreachable in the app.  The stages appear in source order: fund-name
check, selector resolution, filtering, empty-result branch, vintage-based
metric names, metric validation, benchmark computation, empty-metrics
branch, rendering. -/
def runSubmit (catalog : List FundRecord) (q : Query) : Option Outcome :=
  if q.fundName = "" then
    some Outcome.missingFundName
  else
    match tableGet asset_class_mapping q.assetClass,
          tableGet geography_mapping q.geography,
          bucketRange q.assetClass q.fundSize with
    | some sel, some regs, some range =>
      let filtered := filtered_data catalog sel q.vintage regs range
      let num_funds := filtered.length
      if num_funds = 0 then
        some Outcome.noFunds
      else
        let names := metric_names q.vintage
        let ms := metricsFor q.netIRR q.netTVPI q.netDPI names
        let missing := missing_metrics ms
        if missing.isEmpty then
          let bv := benchmark_values names filtered
          if ms.isEmpty then
            some Outcome.noMetrics
          else
            some (Outcome.benchmarks bv ms num_funds)
        else
          some (Outcome.missingMetrics missing)
    | _, _, _ => none

/-!
Helper lemmas about table lookups, sample inputs used by the witnesses,
and the claim theorems.
-/

/-- A successful table lookup returns an entry of the table carrying the
looked-up key. -/
theorem tableGet_mem {α : Type} {tbl : List (String × α)} {k : String} {v : α}
    (h : tableGet tbl k = some v) : (k, v) ∈ tbl := by
  unfold tableGet at h
  cases hf : tbl.find? (fun e => e.1 == k) with
  | none => rw [hf] at h; cases h
  | some e =>
    rw [hf] at h
    have he : e ∈ tbl := List.mem_of_find?_eq_some hf
    have hk := List.find?_some hf
    have hv : e.2 = v := Option.some.inj h
    have hk2 : e.1 = k := by simpa using hk
    have hkv : (k, v) = e := by
      cases e
      simp_all
    rw [hkv]
    exact he

/-- A resolved size bucket comes from the bucket table of its asset
class. -/
theorem bucketRange_mem {ac lbl : String} {range : SizeRange}
    (h : bucketRange ac lbl = some range) :
    ∃ tbl, (ac, tbl) ∈ fund_size_mapping ∧ (lbl, range) ∈ tbl := by
  unfold bucketRange at h
  cases ht : tableGet fund_size_mapping ac with
  | none => rw [ht] at h; cases h
  | some tbl =>
    rw [ht] at h
    exact ⟨tbl, tableGet_mem ht, tableGet_mem h⟩

/-- The applicable-metric dict of line 135 is never empty: both branches of
`metric_names` keep NET TVPI (and NET DPI). -/
theorem metricsFor_metric_names_ne_nil (irr tvpi dpi : ℚ) (v : Int) :
    metricsFor irr tvpi dpi (metric_names v) ≠ [] := by
  by_cases h : v ∈ recentVintages <;>
    simp [metricsFor, metricItems, metric_names, h]

/-- Whether the size predicates of two buckets of one asset class both
match a given fund size (false as well when either bucket label does not
resolve). -/
def bothMatch (ac l1 l2 : String) (b : ℚ) : Bool :=
  match bucketRange ac l1, bucketRange ac l2 with
  | some r1, some r2 => sizeBetween r1 b && sizeBetween r2 b
  | _, _ => false

/-- A complete, valid sample submission. -/
def qValid : Query :=
  { fundName := "Fund A", assetClass := "Venture Capital (all stages)",
    vintage := 2010, geography := "Europe", fundSize := "$10mn-$50mn",
    netIRR := 5, netTVPI := 2, netDPI := 1 }

/-- A sample submission with the fund name left empty. -/
def qNoName : Query :=
  { fundName := "", assetClass := "Venture Capital (all stages)",
    vintage := 2010, geography := "Europe", fundSize := "$10mn-$50mn",
    netIRR := 5, netTVPI := 2, netDPI := 1 }

/-- A sample submission whose NET TVPI input was left at the widget default
of zero, i.e. a missing applicable metric. -/
def qMissingTVPI : Query :=
  { fundName := "Fund A", assetClass := "Venture Capital (all stages)",
    vintage := 2010, geography := "Europe", fundSize := "$10mn-$50mn",
    netIRR := 5, netTVPI := 0, netDPI := 1 }

/-- A catalog row matching `qValid` and `qMissingTVPI`. -/
def recMatching : FundRecord :=
  { assetClass := "Venture Capital", vintage := 2010, region := "Europe",
    fundSize := 25, netIRR := some 12, netTVPI := some 2, netDPI := some 1 }

/-- A catalog row with a missing NET IRR cell but present NET TVPI. -/
def recNoIRR : FundRecord :=
  { assetClass := "Venture Capital", vintage := 2010, region := "Europe",
    fundSize := 30, netIRR := none, netTVPI := some 3, netDPI := some 1 }

/-- Claim C1, counterexample: the claim says a missing or zero applicable
metric makes the submission fail with a validation error before any
filtering, for every query.  On the code the metric validation sits inside
the non-empty-result branch: on a query with a zero NET TVPI whose filters
match no catalog row, the app reports the zero-matches warning and never
the validation error. -/
theorem C1_counterexample :
    "NET TVPI (X)" ∈ metric_names qMissingTVPI.vintage ∧
    qMissingTVPI.netTVPI = 0 ∧
    missing_metrics
      (metricsFor qMissingTVPI.netIRR qMissingTVPI.netTVPI qMissingTVPI.netDPI
        (metric_names qMissingTVPI.vintage)) = ["NET TVPI (X)"] ∧
    runSubmit [] qMissingTVPI = some Outcome.noFunds := by
  decide

/-- Claim C1, amended: when the fund name is present, the selectors
resolve, and the filtered subset is non-empty, a missing or zero
applicable metric makes the submission fail with the validation error
listing the missing metrics, and no benchmark result is produced; the
validation happens after filtering, not before, and a query matching zero
rows reports the empty result instead. -/
theorem C1_missing_metric_validation (catalog : List FundRecord) (q : Query)
    (sel regs : List String) (range : SizeRange)
    (hname : ¬ q.fundName = "")
    (h1 : tableGet asset_class_mapping q.assetClass = some sel)
    (h2 : tableGet geography_mapping q.geography = some regs)
    (h3 : bucketRange q.assetClass q.fundSize = some range)
    (hne : filtered_data catalog sel q.vintage regs range ≠ [])
    (hmiss : missing_metrics
      (metricsFor q.netIRR q.netTVPI q.netDPI (metric_names q.vintage)) ≠ []) :
    runSubmit catalog q =
      some (Outcome.missingMetrics
        (missing_metrics
          (metricsFor q.netIRR q.netTVPI q.netDPI (metric_names q.vintage)))) := by
  simp [runSubmit, hname, h1, h2, h3, hne, hmiss, List.isEmpty_iff, List.length_eq_zero]

/-- Claim C1, witness for the amended theorem at a concrete catalog and
submission. -/
theorem C1_witness :
    (¬ qMissingTVPI.fundName = "") ∧
    tableGet asset_class_mapping qMissingTVPI.assetClass = some ["Venture Capital"] ∧
    tableGet geography_mapping qMissingTVPI.geography = some ["Europe"] ∧
    bucketRange qMissingTVPI.assetClass qMissingTVPI.fundSize = some ((10 : ℚ), some 50) ∧
    filtered_data [recMatching] ["Venture Capital"] qMissingTVPI.vintage ["Europe"]
      ((10 : ℚ), some 50) ≠ [] ∧
    missing_metrics (metricsFor qMissingTVPI.netIRR qMissingTVPI.netTVPI qMissingTVPI.netDPI
      (metric_names qMissingTVPI.vintage)) ≠ [] ∧
    runSubmit [recMatching] qMissingTVPI =
      some (Outcome.missingMetrics
        (missing_metrics (metricsFor qMissingTVPI.netIRR qMissingTVPI.netTVPI
          qMissingTVPI.netDPI (metric_names qMissingTVPI.vintage)))) :=
  ⟨by decide, by decide, by decide, by decide, by decide, by decide,
    C1_missing_metric_validation [recMatching] qMissingTVPI ["Venture Capital"] ["Europe"]
      ((10 : ℚ), some 50) (by decide) (by decide) (by decide) (by decide)
      (by decide) (by decide)⟩

/-- Claim C2, counterexample: the claim says every bucket range has an
exclusive finite upper bound, so a record whose fund size equals the
bucket upper bound is not matched.  On the code the size test is pandas
`between` with inclusive bounds: the Venture Capital bucket
$10mn-$50mn resolves to (10, 50) and a fund size of exactly 50 does
match it. -/
theorem C2_counterexample :
    bucketRange "Venture Capital (all stages)" "$10mn-$50mn" = some ((10 : ℚ), some 50) ∧
    sizeBetween ((10 : ℚ), some 50) 50 = true := by
  decide

/-- Claim C2, amended: for every asset class and size-bucket label, the
resolved range is applied inclusively at both ends: the lower bound
matches, and a fund size equal to a finite upper bound also matches. -/
theorem C2_bounds_inclusive (ac lbl : String) (range : SizeRange)
    (hr : bucketRange ac lbl = some range) (u : ℚ) (hu : range.2 = some u) :
    sizeBetween range range.1 = true ∧ sizeBetween range u = true := by
  obtain ⟨tbl, ht, hb⟩ := bucketRange_mem hr
  fin_cases ht <;> simp_all <;>
    rcases hb with ⟨rfl, rfl⟩ | ⟨rfl, rfl⟩ | ⟨rfl, rfl⟩ | ⟨rfl, rfl⟩ | ⟨rfl, rfl⟩ | ⟨rfl, rfl⟩ <;>
    simp at hu <;> (subst hu; exact ⟨by decide, by decide⟩)

/-- Claim C2, witness for the amended theorem at the Venture Capital
$10mn-$50mn bucket and its upper bound 50. -/
theorem C2_witness :
    bucketRange "Venture Capital (all stages)" "$10mn-$50mn" = some ((10 : ℚ), some 50) ∧
    ((10 : ℚ), (some 50 : Option ℚ)).2 = some (50 : ℚ) ∧
    (sizeBetween ((10 : ℚ), some 50) ((10 : ℚ), (some 50 : Option ℚ)).1 = true ∧
      sizeBetween ((10 : ℚ), some 50) 50 = true) :=
  ⟨by decide, by decide,
    C2_bounds_inclusive "Venture Capital (all stages)" "$10mn-$50mn" ((10 : ℚ), some 50)
      (by decide) 50 (by decide)⟩

/-- Claim C3, confirmed: the per-metric statistics (90th percentile, 75th
percentile, mean) are computed over the non-missing values only.  A record
with a missing value for metric M, inserted anywhere in the subset, leaves
all three of M's statistics unchanged, while its present value for another
metric Mo still enters Mo's value series. -/
theorem C3_missing_values_ignored (M Mo : String) (as bs : List FundRecord)
    (r : FundRecord) (v : ℚ)
    (hM : metricColumn M r = none) (hMo : metricColumn Mo r = some v) :
    benchmarkFor M (as ++ r :: bs) = benchmarkFor M (as ++ bs) ∧
    metricValues Mo (as ++ r :: bs) = metricValues Mo as ++ v :: metricValues Mo bs := by
  have h1 : metricValues M (as ++ r :: bs) = metricValues M (as ++ bs) := by
    simp [metricValues, List.filterMap_append, hM]
  constructor
  · simp [benchmarkFor, h1]
  · simp [metricValues, List.filterMap_append, hMo]

/-- Claim C3, witness: a row with a missing NET IRR cell does not change
the NET IRR benchmark triple, and its NET TVPI value still counts for NET
TVPI. -/
theorem C3_witness :
    metricColumn "NET IRR (%)" recNoIRR = none ∧
    metricColumn "NET TVPI (X)" recNoIRR = some 3 ∧
    (benchmarkFor "NET IRR (%)" ([recMatching] ++ recNoIRR :: []) =
        benchmarkFor "NET IRR (%)" ([recMatching] ++ []) ∧
      metricValues "NET TVPI (X)" ([recMatching] ++ recNoIRR :: []) =
        metricValues "NET TVPI (X)" [recMatching] ++ 3 :: metricValues "NET TVPI (X)" []) :=
  ⟨by decide, by decide,
    C3_missing_values_ignored "NET IRR (%)" "NET TVPI (X)" [recMatching] [] recNoIRR 3
      (by decide) (by decide)⟩

/-- Claim C4, confirmed: for any selectable vintage in the three most
recent years (2022-2024, exactly the selectable vintages from 2022 on),
the applicable metric set is exactly NET TVPI and NET DPI, and NET IRR
does not appear among the evaluated metrics whatever IRR value the caller
supplied; for any earlier vintage it is exactly NET IRR, NET TVPI and NET
DPI. -/
theorem C4_vintage_metric_set (v : Int) (hv : v ∈ vintage_options) (irr tvpi dpi : ℚ) :
    (v ∈ recentVintages →
       metric_names v = ["NET TVPI (X)", "NET DPI (X)"] ∧
       "NET IRR (%)" ∉ (metricsFor irr tvpi dpi (metric_names v)).map Prod.fst) ∧
    (v ∉ recentVintages →
       metric_names v = ["NET IRR (%)", "NET TVPI (X)", "NET DPI (X)"]) ∧
    vintage_options.filter (fun y => decide (2022 ≤ y)) = recentVintages := by
  refine ⟨?_, ?_, by decide⟩
  · intro hrec
    have hm : metric_names v = ["NET TVPI (X)", "NET DPI (X)"] := by
      simp [metric_names, hrec]
    refine ⟨hm, ?_⟩
    rw [hm]
    simp [metricsFor, metricItems]
  · intro hnot
    simp [metric_names, hnot]

/-- Claim C4, witness at vintage 2023 with a nonzero supplied IRR. -/
theorem C4_witness :
    (2023 : Int) ∈ vintage_options ∧
    (((2023 : Int) ∈ recentVintages →
        metric_names 2023 = ["NET TVPI (X)", "NET DPI (X)"] ∧
        "NET IRR (%)" ∉ (metricsFor 15 2 1 (metric_names 2023)).map Prod.fst) ∧
      ((2023 : Int) ∉ recentVintages →
        metric_names 2023 = ["NET IRR (%)", "NET TVPI (X)", "NET DPI (X)"]) ∧
      vintage_options.filter (fun y => decide (2022 ≤ y)) = recentVintages) :=
  ⟨by decide, C4_vintage_metric_set 2023 (by decide) 15 2 1⟩

/-- Claim C5, confirmed: membership in the filtered subset is exactly the
conjunction of the four predicates — asset class in the selected set,
exact vintage equality, region in the selected set, and fund size within
the resolved range, inclusive at the lower bound and at a finite upper
bound. -/
theorem C5_filter_conjunction (catalog : List FundRecord) (sel regs : List String)
    (vintage : Int) (range : SizeRange) (r : FundRecord) :
    r ∈ filtered_data catalog sel vintage regs range ↔
      r ∈ catalog ∧ r.assetClass ∈ sel ∧ r.vintage = vintage ∧ r.region ∈ regs ∧
        (range.1 ≤ r.fundSize ∧ ∀ u, range.2 = some u → r.fundSize ≤ u) := by
  rcases range with ⟨lo, ub⟩
  cases ub <;>
    simp [filtered_data, List.mem_filter, sizeBetween, and_assoc]

/-- Claim C6, confirmed: when the fund name is present, the selectors
resolve, and the filters match zero catalog rows, the submission yields
the zero-matches report — an outcome distinct from the error outcomes and
carrying no benchmark values. -/
theorem C6_empty_result (catalog : List FundRecord) (q : Query)
    (sel regs : List String) (range : SizeRange)
    (hname : ¬ q.fundName = "")
    (h1 : tableGet asset_class_mapping q.assetClass = some sel)
    (h2 : tableGet geography_mapping q.geography = some regs)
    (h3 : bucketRange q.assetClass q.fundSize = some range)
    (hempty : filtered_data catalog sel q.vintage regs range = []) :
    runSubmit catalog q = some Outcome.noFunds := by
  simp [runSubmit, hname, h1, h2, h3, hempty]

/-- Claim C6, witness on the empty catalog. -/
theorem C6_witness :
    (¬ qValid.fundName = "") ∧
    tableGet asset_class_mapping qValid.assetClass = some ["Venture Capital"] ∧
    tableGet geography_mapping qValid.geography = some ["Europe"] ∧
    bucketRange qValid.assetClass qValid.fundSize = some ((10 : ℚ), some 50) ∧
    filtered_data [] ["Venture Capital"] qValid.vintage ["Europe"] ((10 : ℚ), some 50) = [] ∧
    runSubmit [] qValid = some Outcome.noFunds :=
  ⟨by decide, by decide, by decide, by decide, by decide,
    C6_empty_result [] qValid ["Venture Capital"] ["Europe"] ((10 : ℚ), some 50)
      (by decide) (by decide) (by decide) (by decide) (by decide)⟩

/-- Claim C7, confirmed: a submission with an empty fund name yields the
validation failure, whatever the catalog — in particular no filtering of
any catalog is performed. -/
theorem C7_missing_fund_name (catalog : List FundRecord) (q : Query)
    (h : q.fundName = "") :
    runSubmit catalog q = some Outcome.missingFundName := by
  simp [runSubmit, h]

/-- Claim C7, witness. -/
theorem C7_witness :
    qNoName.fundName = "" ∧
    runSubmit [recMatching] qNoName = some Outcome.missingFundName :=
  ⟨by decide, C7_missing_fund_name [recMatching] qNoName (by decide)⟩

/-- Claim C8, confirmed: for every asset class, the Agnostic bucket
resolves to a range whose predicate matches every nonnegative fund
size. -/
theorem C8_agnostic_bucket (ac : String) (range : SizeRange)
    (hr : bucketRange ac "Agnostic" = some range) (s : ℚ) (hs : 0 ≤ s) :
    sizeBetween range s = true := by
  obtain ⟨tbl, ht, hb⟩ := bucketRange_mem hr
  fin_cases ht <;> simp_all [sizeBetween]

/-- Claim C8, witness at the Venture Capital Agnostic bucket and size 7. -/
theorem C8_witness :
    bucketRange "Venture Capital (all stages)" "Agnostic" = some ((0 : ℚ), none) ∧
    (0 : ℚ) ≤ 7 ∧
    sizeBetween ((0 : ℚ), none) 7 = true :=
  ⟨by decide, by decide,
    C8_agnostic_bucket "Venture Capital (all stages)" ((0 : ℚ), none) (by decide) 7 (by decide)⟩

/-- Claim C9, confirmed: the named buckets of an asset class do not
partition the size axis — at every shared boundary of two adjacent
buckets, both bucket predicates match the boundary value, because both
bounds are applied inclusively. -/
theorem C9_shared_boundaries :
    bothMatch "Venture Capital (all stages)" "$10mn-$50mn" "$50mn-$100mn" 50 = true ∧
    bothMatch "Venture Capital (all stages)" "$50mn-$100mn" "$100mn-$200mn" 100 = true ∧
    bothMatch "Venture Capital (all stages)" "$100mn-$200mn" "$200mn-$500mn" 200 = true ∧
    bothMatch "Venture Capital (all stages)" "$200mn-$500mn" "$500mn+" 500 = true ∧
    bothMatch "Private Equity (Buy-out)" "<$1bn" "$1bn-$3bn" 1000 = true ∧
    bothMatch "Private Equity (Buy-out)" "$1bn-$3bn" "$3bn-$5bn" 3000 = true ∧
    bothMatch "Private Equity (Buy-out)" "$3bn-$5bn" "$5bn-$10bn" 5000 = true ∧
    bothMatch "Private Equity (Buy-out)" "$5bn-$10bn" ">$10bn" 10000 = true := by
  decide

/-- Claim C10, confirmed: for every selectable vintage the applicable
metric set contains NET TVPI and NET DPI and is non-empty, and the
no-metrics-to-display outcome is unreachable for every catalog and
submission. -/
theorem C10_no_metrics_unreachable (v : Int) (hv : v ∈ vintage_options) :
    "NET TVPI (X)" ∈ metric_names v ∧ "NET DPI (X)" ∈ metric_names v ∧
    metric_names v ≠ [] ∧
    ∀ (catalog : List FundRecord) (q : Query),
      runSubmit catalog q ≠ some Outcome.noMetrics := by
  refine ⟨?_, ?_, ?_, ?_⟩
  · by_cases h : v ∈ recentVintages <;> simp [metric_names, h]
  · by_cases h : v ∈ recentVintages <;> simp [metric_names, h]
  · by_cases h : v ∈ recentVintages <;> simp [metric_names, h]
  · intro catalog q h
    simp only [runSubmit] at h
    split at h
    · cases h
    · split at h
      · split at h
        · cases h
        · split at h
          · split at h
            · rename_i hempty
              exact metricsFor_metric_names_ne_nil q.netIRR q.netTVPI q.netDPI q.vintage
                (List.isEmpty_iff.mp hempty)
            · cases h
          · cases h
      · cases h

/-- Claim C10, witness at vintage 2010. -/
theorem C10_witness :
    (2010 : Int) ∈ vintage_options ∧
    ("NET TVPI (X)" ∈ metric_names 2010 ∧ "NET DPI (X)" ∈ metric_names 2010 ∧
      metric_names 2010 ≠ [] ∧
      ∀ (catalog : List FundRecord) (q : Query),
        runSubmit catalog q ≠ some Outcome.noMetrics) :=
  ⟨by decide, C10_no_metrics_unreachable 2010 (by decide)⟩
